import Mathlib

/-!
Formal model of the webcam watcher (`webcam_control_app.py` and
`webcam_ntfy_watcher.py`): the hysteresis health filter, online/offline
state publication, new-file detection with the alarm cooldown, the
lifecycle controller (`start`/`stop`/`status`), the probes and
`clear_images`.  Timestamps are naturals, probe outcomes and directory
scans are explicit inputs (a failed scan is `none`), and a notification
is an `Event` value recording the template name and the extra format
variables passed to `send_event`.
-/

/-- A notification as produced by `send_event(name, **fmt)`: the template
name and the extra format variables supplied by the caller. -/
structure Event where
  name : String
  fmt : List (String × String)
  deriving DecidableEq

/-- Python list slicing `hist[-n:]` as used in
`self._health_hist = self._health_hist[-n:]`: the whole list when `n = 0`,
otherwise the last `n` elements. -/
def pySliceLastN {α : Type} (n : Nat) (l : List α) : List α :=
  if n = 0 then l else l.drop (l.length - n)

/-- The last `n` elements of a list. -/
def lastN {α : Type} (n : Nat) (l : List α) : List α :=
  l.drop (l.length - n)

/-- One tick of the hysteresis filter (`webcam_control_app.py`, the
health-history update in `_run`): append the raw sample, keep the last `n`
entries, and compute the verdict — the majority vote
`sum(hist) >= n // 2 + 1` once the window holds exactly `n` samples,
otherwise the raw sample itself. -/
def healthStep (n : Nat) (hist : List Bool) (raw : Bool) : List Bool × Bool :=
  let hist2 := pySliceLastN n (hist ++ [raw])
  (hist2,
   if hist2.length = n then decide (n / 2 + 1 ≤ hist2.count true) else raw)

/-- The hysteresis history after a sequence of raw samples, starting from
the empty history (`self._health_hist = []`). -/
def runHist (n : Nat) (samples : List Bool) : List Bool :=
  samples.foldl (fun h raw => (healthStep n h raw).1) []

/-- History together with the published verdict after a sequence of raw
samples (`none` before the first sample was taken). -/
def runHealth (n : Nat) (samples : List Bool) : List Bool × Option Bool :=
  samples.foldl
    (fun acc raw =>
      let s := healthStep n acc.1 raw
      (s.1, some s.2))
    ([], none)

theorem pySliceLastN_eq_lastN {α : Type} (n : Nat) (hn : 1 ≤ n) (l : List α) :
    pySliceLastN n l = lastN n l := by
  unfold pySliceLastN lastN
  rw [if_neg (by omega)]

theorem length_lastN {α : Type} (n : Nat) (l : List α) :
    (lastN n l).length = l.length - (l.length - n) := by
  simp [lastN]

theorem lastN_append_singleton {α : Type} (n : Nat) (hn : 1 ≤ n)
    (l : List α) (b : α) :
    lastN n (l ++ [b]) = lastN (n - 1) l ++ [b] := by
  unfold lastN
  have hi : (l ++ [b]).length - n = l.length - (n - 1) := by
    simp only [List.length_append, List.length_singleton]
    omega
  rw [List.drop_append_eq_append_drop, hi]
  have h0 : l.length - (n - 1) - l.length = 0 := by omega
  rw [h0]
  rfl

theorem lastN_lastN {α : Type} (a b : Nat) (hab : a ≤ b) (l : List α) :
    lastN a (lastN b l) = lastN a l := by
  unfold lastN
  rw [List.length_drop, List.drop_drop]
  congr 1
  omega

theorem lastN_lastN_append {α : Type} (n : Nat) (hn : 1 ≤ n)
    (l : List α) (b : α) :
    lastN n (lastN n l ++ [b]) = lastN n (l ++ [b]) := by
  rw [lastN_append_singleton n hn, lastN_append_singleton n hn,
    lastN_lastN (n - 1) n (by omega)]

theorem runHist_eq_lastN (n : Nat) (hn : 1 ≤ n) (samples : List Bool) :
    runHist n samples = lastN n samples := by
  induction samples using List.reverseRecOn with
  | nil => simp [runHist, lastN]
  | append_singleton s b ih =>
    unfold runHist at ih ⊢
    rw [List.foldl_append]
    simp only [List.foldl_cons, List.foldl_nil]
    rw [ih]
    simp only [healthStep]
    rw [pySliceLastN_eq_lastN n hn, lastN_lastN_append n hn]

theorem runHealth_fst (n : Nat) (samples : List Bool) :
    (runHealth n samples).1 = runHist n samples := by
  induction samples using List.reverseRecOn with
  | nil => rfl
  | append_singleton s b ih =>
    unfold runHealth runHist at ih ⊢
    rw [List.foldl_append, List.foldl_append]
    simp only [List.foldl_cons, List.foldl_nil]
    rw [ih]

theorem runHealth_concat (n : Nat) (s : List Bool) (b : Bool) :
    runHealth n (s ++ [b]) =
      ((healthStep n (runHealth n s).1 b).1,
       some (healthStep n (runHealth n s).1 b).2) := by
  unfold runHealth
  rw [List.foldl_append]
  simp only [List.foldl_cons, List.foldl_nil]

/-- C1: for every sample sequence and window size `n ≥ 1`, once at least
`n` samples exist the published verdict is `true` iff the count of `true`
among the last `n` samples is at least `⌊n/2⌋ + 1`; with fewer than `n`
samples the verdict equals the latest raw sample. -/
theorem C1_hysteresis_verdict (n : Nat) (samples : List Bool) (hn : 1 ≤ n) :
    (n ≤ samples.length →
      (runHealth n samples).2 =
        some (decide (n / 2 + 1 ≤ (lastN n samples).count true)))
    ∧ (samples.length < n → (runHealth n samples).2 = samples.getLast?) := by
  induction samples using List.reverseRecOn with
  | nil =>
    constructor
    · intro h
      simp only [List.length_nil, Nat.le_zero] at h
      omega
    · intro _
      rfl
  | append_singleton s b _ =>
    have hfst : (runHealth n s).1 = lastN n s := by
      rw [runHealth_fst, runHist_eq_lastN n hn]
    have hkey : (healthStep n (lastN n s) b).2 =
        if (lastN n (s ++ [b])).length = n then
          decide (n / 2 + 1 ≤ (lastN n (s ++ [b])).count true)
        else b := by
      simp only [healthStep]
      rw [pySliceLastN_eq_lastN n hn, lastN_lastN_append n hn]
    have hsnd : (runHealth n (s ++ [b])).2 =
        some (if (lastN n (s ++ [b])).length = n then
                decide (n / 2 + 1 ≤ (lastN n (s ++ [b])).count true)
              else b) := by
      rw [runHealth_concat, hfst, hkey]
    have hlen : (lastN n (s ++ [b])).length =
        s.length + 1 - (s.length + 1 - n) := by
      rw [length_lastN]
      simp
    constructor
    · intro hle
      simp only [List.length_append, List.length_singleton] at hle
      have hfull : (lastN n (s ++ [b])).length = n := by
        rw [hlen]
        omega
      rw [hsnd, if_pos hfull]
    · intro hlt
      simp only [List.length_append, List.length_singleton] at hlt
      have hne : (lastN n (s ++ [b])).length ≠ n := by
        rw [hlen]
        omega
      rw [hsnd, if_neg hne]
      simp

/-- Witness for C1 at concrete inputs: with `n = 2` the tie
`[true, false]` gives verdict `false` (strict majority), and with `n = 3`
a single sample `[true]` gives the raw sample `true`. -/
theorem C1_hysteresis_verdict_witness :
    (runHealth 2 [true, false]).2 = some false
    ∧ (runHealth 3 [true]).2 = some true := by
  constructor
  · have h := (C1_hysteresis_verdict 2 [true, false] (by decide)).1 (by decide)
    rw [h]
    decide
  · have h := (C1_hysteresis_verdict 3 [true] (by decide)).2 (by decide)
    rw [h]
    decide

/-- The online/offline notification for a verdict
(`"online" if webcam_ok else "offline"`). -/
def onOffEvent (v : Bool) : Event :=
  ⟨if v then "online" else "offline", []⟩

/-- State publication in `WebcamWatcher._run`: on the first verdict
(`self._last_webcam_ok is None`) remember it, stamp the change time and
send an event; afterwards do the same exactly when the verdict flips.
Returns the new `_last_webcam_ok`, the new `_last_webcam_change` and the
events sent. -/
def publishStep (lastOk : Option Bool) (lastChange : Option Nat)
    (v : Bool) (now : Nat) : Option Bool × Option Nat × List Event :=
  match lastOk with
  | none => (some v, some now, [onOffEvent v])
  | some prev =>
    if v ≠ prev then (some v, some now, [onOffEvent v])
    else (some prev, lastChange, [])

/-- Status-change handling in `webcam_ntfy_watcher.main`: on the first
pass the verdict is only remembered (no notification); afterwards a
notification is sent on an OFFLINE→ONLINE or ONLINE→OFFLINE flip, and the
remembered verdict is updated in every case. -/
def ntfyStatusStep (lastOk : Option Bool) (v : Bool) :
    Option Bool × List Event :=
  match lastOk with
  | none => (some v, [])
  | some prev =>
    if v && !prev then (some v, [onOffEvent v])
    else if !v && prev then (some v, [onOffEvent v])
    else (some v, [])

/-- C2 counterexample: in `webcam_ntfy_watcher.main` the first computed
verdict fires no event at all — it is only remembered ("erster Durchlauf
-> nur merken") and no change timestamp exists, contradicting the claim
that in every monitor loop the first verdict fires an online/offline
event. -/
theorem C2_first_verdict_counterexample :
    ntfyStatusStep none true = (some true, []) := rfl

/-- C2 amended: in `WebcamWatcher._run` an online/offline event fires
exactly when the verdict differs from the previously published one, and
the first verdict always fires and stamps the change time; in
`webcam_ntfy_watcher.main` the first verdict is only remembered (no
event), and afterwards an event fires exactly on verdict flips. -/
theorem C2_transition_amended (lastChange : Option Nat) (v : Bool)
    (now : Nat) :
    publishStep none lastChange v now = (some v, some now, [onOffEvent v])
    ∧ (∀ prev, publishStep (some prev) lastChange v now =
        if v = prev then (some prev, lastChange, [])
        else (some v, some now, [onOffEvent v]))
    ∧ ntfyStatusStep none v = (some v, [])
    ∧ (∀ prev, ntfyStatusStep (some prev) v =
        (some v, if v = prev then [] else [onOffEvent v])) := by
  refine ⟨rfl, ?_, rfl, ?_⟩
  · intro prev
    cases v <;> cases prev <;> simp [publishStep, onOffEvent]
  · intro prev
    cases v <;> cases prev <;> simp [ntfyStatusStep, onOffEvent]

/-- Eligibility of a motion alarm: `now - last_alarm_time >=
min_alarm_interval`, where `last_alarm_time` starts as `datetime.min`
(modelled as `none`), which compares as infinitely old, so before any
alarm the check always succeeds. -/
def alarmEligible (lastAlarm : Option Nat) (cooldown now : Nat) : Prop :=
  match lastAlarm with
  | none => True
  | some t => t + cooldown ≤ now

instance (lastAlarm : Option Nat) (cooldown now : Nat) :
    Decidable (alarmEligible lastAlarm cooldown now) := by
  unfold alarmEligible
  cases lastAlarm <;> infer_instance

/-- New-file handling shared by `WebcamWatcher._run` and
`webcam_ntfy_watcher.main`: `new_files = current_files - known_files`; if
non-empty and the cooldown has elapsed, a `motion` event is sent with no
format variables (`send_event("motion")`) and the alarm time becomes
`now`; in every case `known_files` becomes the current scan. Returns the
new `known_files`, the new alarm time and the events sent. -/
def debounceStep (cooldown : Nat) (known : Finset String)
    (lastAlarm : Option Nat) (cur : Finset String) (now : Nat) :
    Finset String × Option Nat × List Event :=
  if (cur \ known).Nonempty ∧ alarmEligible lastAlarm cooldown now then
    (cur, some now, [⟨"motion", []⟩])
  else
    (cur, lastAlarm, [])

/-- C3 counterexample: with `known = {a.jpg}` and a scan
`{a.jpg, b.jpg}` while eligible, the alert fires but the `motion` event
carries no format variables (`send_event("motion")` passes none): it does
not carry the sorted list of new filenames — that list is only printed to
the log. -/
theorem C3_motion_payload_counterexample :
    debounceStep 600 {"a.jpg"} none {"a.jpg", "b.jpg"} 0 =
      ({"a.jpg", "b.jpg"}, some 0, [⟨"motion", []⟩]) := by
  decide

/-- C3 amended: whenever the new-file set is non-empty and either no
alarm has ever fired or the cooldown has elapsed, a single `motion` event
fires with an empty payload (the sorted new filenames are only logged,
not attached to the event) and the alarm time is set to `now`; and the
alarm time is left unchanged on every tick on which no alert fires. -/
theorem C3_cooldown_amended (cooldown : Nat) (known : Finset String)
    (lastAlarm : Option Nat) (cur : Finset String) (now : Nat)
    (hnew : (cur \ known).Nonempty)
    (helig : alarmEligible lastAlarm cooldown now) :
    debounceStep cooldown known lastAlarm cur now =
      (cur, some now, [⟨"motion", []⟩])
    ∧ ∀ k la c t, (debounceStep cooldown k la c t).2.2 = [] →
        (debounceStep cooldown k la c t).2.1 = la := by
  constructor
  · unfold debounceStep
    rw [if_pos ⟨hnew, helig⟩]
  · intro k la c t h
    by_cases hc : (c \ k).Nonempty ∧ alarmEligible la cooldown t
    · unfold debounceStep at h
      rw [if_pos hc] at h
      simp at h
    · unfold debounceStep
      rw [if_neg hc]

/-- Witness for C3 at a concrete input: first-ever alarm with one new
file fires the payload-free motion event and records the alarm time. -/
theorem C3_cooldown_amended_witness :
    debounceStep 600 ∅ none {"b.jpg"} 5 = ({"b.jpg"}, some 5, [⟨"motion", []⟩]) :=
  (C3_cooldown_amended 600 ∅ none {"b.jpg"} 5 (by decide) trivial).1

/-- C4: on every tick, whether or not the alert was suppressed,
`known_files` becomes the current scan; consequently a file from a
suppressed batch that is still present in a later scan is never again in
the new-file set. -/
theorem C4_known_files_merge (cooldown : Nat) (known : Finset String)
    (lastAlarm : Option Nat) (cur : Finset String) (now : Nat)
    (f : String) (hf : f ∈ cur) (cur2 : Finset String) :
    (debounceStep cooldown known lastAlarm cur now).1 = cur
    ∧ f ∉ cur2 \ (debounceStep cooldown known lastAlarm cur now).1 := by
  have h1 : (debounceStep cooldown known lastAlarm cur now).1 = cur := by
    unfold debounceStep
    split <;> rfl
  refine ⟨h1, ?_⟩
  rw [h1]
  simp [Finset.mem_sdiff, hf]

/-- Witness for C4 at a concrete input: a suppressed batch `{x.jpg}` is
merged and so never reported as new by the following scan. -/
theorem C4_known_files_merge_witness :
    (debounceStep 600 ∅ (some 100) {"x.jpg"} 101).1 = {"x.jpg"}
    ∧ "x.jpg" ∉ ({"x.jpg", "y.jpg"} : Finset String) \
        (debounceStep 600 ∅ (some 100) {"x.jpg"} 101).1 :=
  C4_known_files_merge 600 ∅ (some 100) {"x.jpg"} 101 "x.jpg" (by decide)
    {"x.jpg", "y.jpg"}

/-- The watcher's shared mutable state during a run of
`WebcamWatcher._run`. `lastAlarm` models both the local
`last_alarm_time` (whose `datetime.min` initial value is `none`) and
`self._last_alarm`, which the loop keeps equal. -/
structure LoopState where
  known : Finset String
  lastAlarm : Option Nat
  lastOk : Option Bool
  lastChange : Option Nat
  hist : List Bool
  deriving DecidableEq

/-- The externally observable inputs of one loop iteration: the raw probe
sample, the wall-clock time of the iteration, and the directory scan
result (`none` when `_scan_directory` raises). -/
structure Tick where
  raw : Bool
  now : Nat
  scan : Option (Finset String)
  deriving DecidableEq

/-- The configuration fields the loop decisions depend on: the hysteresis
window size `n` and the alarm cooldown `min_alarm_interval`. -/
structure RunConfig where
  hysteresis : Nat
  cooldown : Nat
  deriving DecidableEq

/-- One iteration of the `while` body of `WebcamWatcher._run`: hysteresis
update on the probe sample, state publication, then the directory scan; a
raising scan (`none`) ends the iteration with the exception propagating
(flag `true`), otherwise the debouncer runs and `known_files` is
replaced by the current scan. -/
def tickStep (cfg : RunConfig) (s : LoopState) (t : Tick) :
    LoopState × List Event × Bool :=
  let h := healthStep cfg.hysteresis s.hist t.raw
  let p := publishStep s.lastOk s.lastChange h.2 t.now
  match t.scan with
  | none =>
    ({ s with hist := h.1, lastOk := p.1, lastChange := p.2.1 }, p.2.2, true)
  | some cur =>
    let d := debounceStep cfg.cooldown s.known s.lastAlarm cur t.now
    ({ known := d.1, lastAlarm := d.2.1, lastOk := p.1,
       lastChange := p.2.1, hist := h.1 },
     p.2.2 ++ d.2.2, false)

/-- The `while not self._stop.is_set()` loop: the tick list holds the
iterations that run before the stop signal is observed; an iteration
whose scan raises ends the loop early, the exception unwinding to the
`finally` block. -/
def runTicks (cfg : RunConfig) : LoopState → List Tick → LoopState × List Event
  | s, [] => (s, [])
  | s, t :: ts =>
    let r := tickStep cfg s t
    if r.2.2 then (r.1, r.2.1)
    else
      let rest := runTicks cfg r.1 ts
      (rest.1, r.2.1 ++ rest.2)

/-- The inputs of one `_run` invocation: whether the watched directory
exists, the initial scan (`none` when it raises — that one failure is
caught), the iterations run before the stop signal is observed, and the
time at which the `finally` block runs. -/
structure RunInput where
  dirExists : Bool
  initialScan : Option (Finset String)
  ticks : List Tick
  endTime : Nat
  deriving DecidableEq

/-- `WebcamWatcher._run`: on a missing directory it logs and returns
without touching state or sending any event; otherwise it seeds
`known_files` from the initial scan (empty set when that scan raised),
resets the health fields, sends `started`, runs the loop iterations and,
in the `finally` block, resets `_last_webcam_ok` to `None`, stamps
`_last_webcam_change` and sends `offline` then `stopped`. -/
def run (cfg : RunConfig) (inp : RunInput) (s0 : LoopState) :
    LoopState × List Event :=
  if inp.dirExists then
    let s1 : LoopState :=
      { known := inp.initialScan.getD ∅, lastAlarm := none,
        lastOk := none, lastChange := none, hist := [] }
    let r := runTicks cfg s1 inp.ticks
    ({ r.1 with lastOk := none, lastChange := some inp.endTime },
     ⟨"started", []⟩ :: (r.2 ++ [⟨"offline", []⟩, ⟨"stopped", []⟩]))
  else
    (s0, [])

/-- Lifecycle state of the `WebcamWatcher` object: whether the watcher
thread is alive, whether the stop event is set, and the loaded
configuration. -/
structure CtrlState where
  running : Bool
  stopSet : Bool
  conf : RunConfig
  deriving DecidableEq

/-- `WebcamWatcher.start`: under the lock, return `False` if the thread
is alive; otherwise reload the configuration, clear the stop event, spawn
the loop thread and return `True`. -/
def start (loaded : RunConfig) (s : CtrlState) : Bool × CtrlState :=
  if s.running then (false, s)
  else (true, { running := true, stopSet := false, conf := loaded })

/-- `WebcamWatcher.stop`: return `False` if no thread is alive; otherwise
set the stop event, join with the caller's timeout and return whether the
thread exited within it (`not t.is_alive()`); the thread stays alive
exactly when the join timed out. -/
def stop (exited : Bool) (s : CtrlState) : Bool × CtrlState :=
  if s.running then
    (exited, { s with stopSet := true, running := !exited })
  else
    (false, s)

/-- The `WatcherStatus` snapshot assembled by `WebcamWatcher.status`. -/
structure WatcherStatus where
  watcherRunning : Bool
  webcamOnline : Option Bool
  lastAlarmUtc : Option Nat
  lastWebcamChangeUtc : Option Nat
  knownFilesCount : Nat
  deriving DecidableEq

/-- `WebcamWatcher.status`: read `is_running()` and the shared fields. -/
def status (running : Bool) (s : LoopState) : WatcherStatus :=
  { watcherRunning := running, webcamOnline := s.lastOk,
    lastAlarmUtc := s.lastAlarm, lastWebcamChangeUtc := s.lastChange,
    knownFilesCount := s.known.card }

/-- C5: `start()` returns `false` and changes nothing when a loop is
already running; otherwise it reloads the configuration, clears the stop
signal, marks the loop running and returns `true`; called twice in
immediate succession it returns `true` then `false`. -/
theorem C5_start (loaded loaded2 : RunConfig) (s : CtrlState) :
    (s.running = true → start loaded s = (false, s))
    ∧ (s.running = false →
        start loaded s =
          (true, { running := true, stopSet := false, conf := loaded }))
    ∧ (s.running = false →
        (start loaded s).1 = true
        ∧ (start loaded2 (start loaded s).2).1 = false) := by
  refine ⟨?_, ?_, ?_⟩ <;> intro h <;> simp [start, h]

/-- Witness for C5 at a concrete input: starting a stopped watcher
succeeds with the reloaded configuration, and a second immediate start
returns `false`. -/
theorem C5_start_witness :
    start ⟨3, 600⟩ ⟨false, true, ⟨1, 0⟩⟩ = (true, ⟨true, false, ⟨3, 600⟩⟩)
    ∧ (start ⟨5, 60⟩ (start ⟨3, 600⟩ ⟨false, true, ⟨1, 0⟩⟩).2).1 = false :=
  ⟨(C5_start ⟨3, 600⟩ ⟨5, 60⟩ ⟨false, true, ⟨1, 0⟩⟩).2.1 rfl,
   ((C5_start ⟨3, 600⟩ ⟨5, 60⟩ ⟨false, true, ⟨1, 0⟩⟩).2.2 rfl).2⟩

/-- C6: `stop(timeout)` returns `false` without error when no loop is
running (a never-started monitor included); otherwise it raises the stop
signal and returns exactly whether the loop exited within the join
bound. -/
theorem C6_stop (exited : Bool) (s : CtrlState) :
    (s.running = false → stop exited s = (false, s))
    ∧ (s.running = true →
        (stop exited s).1 = exited ∧ (stop exited s).2.stopSet = true) := by
  constructor <;> intro h <;> simp [stop, h]

/-- Witness for C6 at concrete inputs: stopping a never-started monitor
returns `false` unchanged, and a running monitor whose join timed out
reports `false`. -/
theorem C6_stop_witness :
    stop true ⟨false, false, ⟨1, 0⟩⟩ = (false, ⟨false, false, ⟨1, 0⟩⟩)
    ∧ (stop false ⟨true, false, ⟨1, 0⟩⟩).1 = false :=
  ⟨(C6_stop true ⟨false, false, ⟨1, 0⟩⟩).1 rfl,
   ((C6_stop false ⟨true, false, ⟨1, 0⟩⟩).2 rfl).1⟩

/-- C7 counterexample: when the watched directory does not exist, `_run`
returns before entering the `try`/`finally` block — the state is left
untouched and no `offline`/`stopped` (nor any) event is sent on that
normal exit path, contradicting the claim for "any normal path". -/
theorem C7_missing_dir_counterexample :
    run ⟨1, 600⟩ ⟨false, some ∅, [], 42⟩ ⟨∅, none, none, none, []⟩ =
      (⟨∅, none, none, none, []⟩, []) := rfl

/-- C7 amended: whenever `_run` exits after its startup succeeded (the
watched directory existed, so the loop entered its `try` block), the
`finally` block resets the published health state to `None` and the event
trace is `started`, the loop's own events, then `offline` followed by
`stopped`; consequently, after a `stop` whose bounded join completed,
`status()` reports `watcher_running = false` and `webcam_online = none`.
The missing-directory exit emits nothing. -/
theorem C7_cleanup_amended (cfg : RunConfig) (inp : RunInput)
    (s0 : LoopState) (ctrl : CtrlState)
    (hdir : inp.dirExists = true) (hrun : ctrl.running = true) :
    (run cfg inp s0).1.lastOk = none
    ∧ (∃ mid, (run cfg inp s0).2 =
        ⟨"started", []⟩ :: (mid ++ [⟨"offline", []⟩, ⟨"stopped", []⟩]))
    ∧ (stop true ctrl).1 = true
    ∧ (status (stop true ctrl).2.running (run cfg inp s0).1).watcherRunning
        = false
    ∧ (status (stop true ctrl).2.running (run cfg inp s0).1).webcamOnline
        = none := by
  have h1 : (run cfg inp s0).1.lastOk = none := by
    simp [run, hdir]
  have hstop : stop true ctrl = (true, { ctrl with stopSet := true, running := false }) := by
    simp [stop, hrun]
  refine ⟨h1, ?_, ?_, ?_, ?_⟩
  · refine ⟨(runTicks cfg
      { known := inp.initialScan.getD ∅, lastAlarm := none,
        lastOk := none, lastChange := none, hist := [] } inp.ticks).2, ?_⟩
    simp [run, hdir]
  · rw [hstop]
  · rw [hstop]
    rfl
  · rw [hstop]
    simp [status, h1]

/-- Witness for C7 at a concrete input: a run over an existing directory
with no iterations, stopped with a completing join. -/
theorem C7_cleanup_amended_witness :
    (run ⟨1, 600⟩ ⟨true, some ∅, [], 42⟩ ⟨∅, none, none, none, []⟩).1.lastOk
        = none
    ∧ (∃ mid, (run ⟨1, 600⟩ ⟨true, some ∅, [], 42⟩
          ⟨∅, none, none, none, []⟩).2 =
        ⟨"started", []⟩ :: (mid ++ [⟨"offline", []⟩, ⟨"stopped", []⟩]))
    ∧ (stop true ⟨true, false, ⟨1, 600⟩⟩).1 = true
    ∧ (status (stop true ⟨true, false, ⟨1, 600⟩⟩).2.running
        (run ⟨1, 600⟩ ⟨true, some ∅, [], 42⟩
          ⟨∅, none, none, none, []⟩).1).watcherRunning = false
    ∧ (status (stop true ⟨true, false, ⟨1, 600⟩⟩).2.running
        (run ⟨1, 600⟩ ⟨true, some ∅, [], 42⟩
          ⟨∅, none, none, none, []⟩).1).webcamOnline = none :=
  C7_cleanup_amended ⟨1, 600⟩ ⟨true, some ∅, [], 42⟩ ⟨∅, none, none, none, []⟩
    ⟨true, false, ⟨1, 600⟩⟩ rfl rfl

/-- C8 counterexample: a healthy first tick whose scan raises ends the
run — the trace is `started`, `online`, then the cleanup's
`offline`/`stopped`; the second tick, which would have reported the new
file `x.jpg`, never runs and no `motion` event appears, contradicting
"the run loop does not terminate". -/
theorem C8_scan_failure_counterexample :
    run ⟨1, 0⟩
      ⟨true, some ∅, [⟨true, 10, none⟩, ⟨true, 20, some {"x.jpg"}⟩], 30⟩
      ⟨∅, none, none, none, []⟩ =
      (⟨∅, none, none, some 30, [true]⟩,
       [⟨"started", []⟩, ⟨"online", []⟩, ⟨"offline", []⟩, ⟨"stopped", []⟩]) := by
  decide

/-- The mutable state of the `webcam_ntfy_watcher.main` loop:
`known_files`, `last_alarm_time` (`datetime.min` as `none`) and
`last_webcam_ok`. The watcher has no change timestamp and no hysteresis
history. -/
structure NtfyState where
  known : Finset String
  lastAlarm : Option Nat
  lastOk : Option Bool
  deriving DecidableEq

/-- One iteration of the `while` body of `webcam_ntfy_watcher.main`:
probe (never raises), status-change handling, then the directory scan; a
raising scan (`none`) ends the iteration with the exception propagating
(flag `true`), otherwise the debouncer runs and `known_files` is
replaced by the current scan. The status-file write catches its own
errors and does not affect this state. -/
def ntfyTickStep (cooldown : Nat) (s : NtfyState) (t : Tick) :
    NtfyState × List Event × Bool :=
  let p := ntfyStatusStep s.lastOk t.raw
  match t.scan with
  | none => ({ s with lastOk := p.1 }, p.2, true)
  | some cur =>
    let d := debounceStep cooldown s.known s.lastAlarm cur t.now
    ({ known := d.1, lastAlarm := d.2.1, lastOk := p.1 }, p.2 ++ d.2.2, false)

/-- The `while not stop_requested` loop of `webcam_ntfy_watcher.main`:
the tick list holds the iterations run before the stop flag is observed;
an iteration whose scan raises ends the loop early, the exception
unwinding to the `finally` block. -/
def ntfyRunTicks (cooldown : Nat) :
    NtfyState → List Tick → NtfyState × List Event
  | s, [] => (s, [])
  | s, t :: ts =>
    let r := ntfyTickStep cooldown s t
    if r.2.2 then (r.1, r.2.1)
    else
      let rest := ntfyRunTicks cooldown r.1 ts
      (rest.1, r.2.1 ++ rest.2)

/-- `webcam_ntfy_watcher.main` from the initial scan on (after the
directory-existence check): the initial scan has no handler, so its
failure (`none`) exits `main` with an unhandled exception and no
notification at all (result `none`); otherwise the start notification is
sent, the loop runs, and the `finally` block sends only the stop
notification — no offline event is emitted there. -/
def ntfyMain (cooldown : Nat) (initialScan : Option (Finset String))
    (ticks : List Tick) : Option (NtfyState × List Event) :=
  match initialScan with
  | none => none
  | some known0 =>
    let r := ntfyRunTicks cooldown ⟨known0, none, none⟩ ticks
    some (r.1, ⟨"started", []⟩ :: (r.2 ++ [⟨"stopped", []⟩]))

/-- C8 amended: in both programs a per-tick scan failure is fatal to the
loop: there is no per-tick handler, the exception propagates, no further
iteration runs (the run of the tick list equals the run of the failing
tick alone) and the previous known-file set is retained. In
`webcam_control_app.py` the `finally` block then emits `offline` and
`stopped`, and only that program's initial scan is wrapped in a handler;
in `webcam_ntfy_watcher.py` the `finally` block emits only `stopped`,
and a failing initial scan exits `main` with no notification at all. -/
theorem C8_scan_failure_amended (cfg : RunConfig) (s : LoopState)
    (t : Tick) (rest : List Tick) (h : t.scan = none)
    (cooldown : Nat) (s2 : NtfyState) :
    (runTicks cfg s (t :: rest) = runTicks cfg s [t]
      ∧ (runTicks cfg s (t :: rest)).1.known = s.known)
    ∧ (ntfyRunTicks cooldown s2 (t :: rest) = ntfyRunTicks cooldown s2 [t]
      ∧ (ntfyRunTicks cooldown s2 (t :: rest)).1.known = s2.known)
    ∧ (∀ known0 ticks, ∃ evs,
        ntfyMain cooldown (some known0) ticks =
          some ((ntfyRunTicks cooldown ⟨known0, none, none⟩ ticks).1,
            ⟨"started", []⟩ :: (evs ++ [⟨"stopped", []⟩])))
    ∧ ntfyMain cooldown none rest = none := by
  have habort : (tickStep cfg s t).2.2 = true := by
    simp [tickStep, h]
  have hknown : (tickStep cfg s t).1.known = s.known := by
    simp [tickStep, h]
  have habort2 : (ntfyTickStep cooldown s2 t).2.2 = true := by
    simp [ntfyTickStep, h]
  have hknown2 : (ntfyTickStep cooldown s2 t).1.known = s2.known := by
    simp [ntfyTickStep, h]
  refine ⟨⟨?_, ?_⟩, ⟨?_, ?_⟩, ?_, rfl⟩
  · simp [runTicks, habort]
  · simp [runTicks, habort, hknown]
  · simp [ntfyRunTicks, habort2]
  · simp [ntfyRunTicks, habort2, hknown2]
  · intro known0 ticks
    exact ⟨(ntfyRunTicks cooldown ⟨known0, none, none⟩ ticks).2, rfl⟩

/-- Witness for C8 at concrete inputs: a failing scan on the first of
two ticks makes both loops ignore the second tick and keep
`known_files`; the ntfy watcher's trace ends with only `stopped`, and
its `main` yields nothing on a failing initial scan. -/
theorem C8_scan_failure_amended_witness :
    (runTicks ⟨1, 0⟩ ⟨{"a.jpg"}, none, none, none, []⟩
        [⟨true, 10, none⟩, ⟨false, 20, some ∅⟩] =
      runTicks ⟨1, 0⟩ ⟨{"a.jpg"}, none, none, none, []⟩ [⟨true, 10, none⟩]
    ∧ (runTicks ⟨1, 0⟩ ⟨{"a.jpg"}, none, none, none, []⟩
        [⟨true, 10, none⟩, ⟨false, 20, some ∅⟩]).1.known = {"a.jpg"})
    ∧ (ntfyRunTicks 600 ⟨{"a.jpg"}, none, none⟩
        [⟨true, 10, none⟩, ⟨false, 20, some ∅⟩] =
      ntfyRunTicks 600 ⟨{"a.jpg"}, none, none⟩ [⟨true, 10, none⟩]
    ∧ (ntfyRunTicks 600 ⟨{"a.jpg"}, none, none⟩
        [⟨true, 10, none⟩, ⟨false, 20, some ∅⟩]).1.known = {"a.jpg"})
    ∧ (∃ evs, ntfyMain 600 (some ∅) [⟨true, 10, none⟩] =
        some ((ntfyRunTicks 600 ⟨∅, none, none⟩ [⟨true, 10, none⟩]).1,
          ⟨"started", []⟩ :: (evs ++ [⟨"stopped", []⟩])))
    ∧ ntfyMain 600 none [⟨false, 20, some ∅⟩] = none := by
  have h := C8_scan_failure_amended ⟨1, 0⟩ ⟨{"a.jpg"}, none, none, none, []⟩
    ⟨true, 10, none⟩ [⟨false, 20, some ∅⟩] rfl 600 ⟨{"a.jpg"}, none, none⟩
  exact ⟨h.1, h.2.1, h.2.2.1 ∅ [⟨true, 10, none⟩], h.2.2.2⟩

/-- Outcome of `requests.get` inside `_check_webcam_once`: a response
with its status code, or a raised exception (timeout, connection
failure). -/
inductive HttpResult
  | response (statusCode : Nat)
  | failure
  deriving DecidableEq

/-- `WebcamWatcher._check_webcam_once`: `r.status_code < 500` on a
response, `False` on any exception. -/
def check_webcam_once : HttpResult → Bool
  | .response st => decide (st < 500)
  | .failure => false

/-- Outcome of the `ping` subprocess inside `check_webcam_online`: a
finished process with its return code, or a raised exception. -/
inductive PingResult
  | finished (returncode : Int)
  | failure
  deriving DecidableEq

/-- `webcam_ntfy_watcher.check_webcam_online`:
`result.returncode == 0`, `False` on any exception. -/
def check_webcam_online : PingResult → Bool
  | .finished rc => rc == 0
  | .failure => false

/-- C9 counterexample: `_check_webcam_once` maps the non-success HTTP
status 404 to `True` (the check is `status_code < 500`), contradicting
the claim that a non-success response status maps to `false`. -/
theorem C9_status_counterexample :
    check_webcam_once (HttpResult.response 404) = true := rfl

/-- C9 amended: both probes are total boolean functions and every raised
transport error (timeout, connection failure) maps to `false`; the HTTP
probe returns `true` exactly for statuses below 500 — client-error
statuses such as 404 included — and the ping probe exactly for return
code 0. -/
theorem C9_probe_amended :
    (∀ st, check_webcam_once (.response st) = decide (st < 500))
    ∧ check_webcam_once .failure = false
    ∧ (∀ rc, check_webcam_online (.finished rc) = decide (rc = 0))
    ∧ check_webcam_online .failure = false := by
  refine ⟨fun st => rfl, rfl, fun rc => ?_, rfl⟩
  by_cases h : rc = 0 <;> simp [check_webcam_online, h]

/-- The format variables of the `cleared` event: the deleted and failed
counts, plus the error text on the exception path. -/
def clearedFmt (deleted failed : Nat) (err : Option String) :
    List (String × String) :=
  [("deleted", toString deleted), ("failed", toString failed)] ++
    (match err with
     | none => []
     | some e => [("error", e)])

/-- `WebcamWatcher.clear_images` (with a validated configuration): scan
the watched directory — `none` when `_scan_directory` raises, which the
outer handler catches before any deletion — delete each file
individually (`unlinkOk` tells which deletions succeed, failures only
being counted), rescan for truth (`none` is caught and leaves the empty
set), and on both paths send one `cleared` event carrying the counts and
return them. -/
def clear_images (scanResult : Option (Finset String))
    (unlinkOk : String → Bool) (rescan : Option (Finset String))
    (known : Finset String) :
    (Nat × Nat) × Finset String × List Event :=
  match scanResult with
  | some files =>
    (((files.filter (fun f => unlinkOk f)).card,
      (files.filter (fun f => ¬ unlinkOk f)).card),
     rescan.getD ∅,
     [⟨"cleared",
       clearedFmt (files.filter (fun f => unlinkOk f)).card
         (files.filter (fun f => ¬ unlinkOk f)).card none⟩])
  | none =>
    ((0, 0), known,
     [⟨"cleared", clearedFmt 0 0 (some "scan failed")⟩])

/-- C10: `clear_images` is total at the public interface: for every scan
outcome (a missing or unreadable directory included), every per-file
deletion outcome and every rescan outcome, it returns the two
non-negative counts — which partition the scanned files when the scan
succeeded — and sends exactly one `cleared` event whose format variables
carry those counts. -/
theorem C10_clear_images_total (scanResult : Option (Finset String))
    (unlinkOk : String → Bool) (rescan : Option (Finset String))
    (known : Finset String) :
    (∃ e : Event,
      (clear_images scanResult unlinkOk rescan known).2.2 = [e]
      ∧ e.name = "cleared"
      ∧ ("deleted",
          toString (clear_images scanResult unlinkOk rescan known).1.1)
            ∈ e.fmt
      ∧ ("failed",
          toString (clear_images scanResult unlinkOk rescan known).1.2)
            ∈ e.fmt)
    ∧ (∀ files, scanResult = some files →
        (clear_images scanResult unlinkOk rescan known).1.1
          + (clear_images scanResult unlinkOk rescan known).1.2
          = files.card) := by
  constructor
  · cases scanResult with
    | none =>
      refine ⟨⟨"cleared", clearedFmt 0 0 (some "scan failed")⟩, rfl, rfl, ?_, ?_⟩
      · simp [clear_images, clearedFmt]
      · simp [clear_images, clearedFmt]
    | some files =>
      refine ⟨_, rfl, rfl, ?_, ?_⟩ <;> simp [clear_images, clearedFmt]
  · intro files hf
    subst hf
    simp only [clear_images]
    exact Finset.filter_card_add_filter_neg_card_eq_card _

/-- Witness for C10 at a concrete input: a one-file directory whose
deletion succeeds and whose rescan raises. -/
theorem C10_clear_images_total_witness :
    (∃ e : Event,
      (clear_images (some {"a.jpg"}) (fun _ => true) none ∅).2.2 = [e]
      ∧ e.name = "cleared"
      ∧ ("deleted",
          toString (clear_images (some {"a.jpg"}) (fun _ => true) none ∅).1.1)
            ∈ e.fmt
      ∧ ("failed",
          toString (clear_images (some {"a.jpg"}) (fun _ => true) none ∅).1.2)
            ∈ e.fmt)
    ∧ (clear_images (some {"a.jpg"}) (fun _ => true) none ∅).1.1
        + (clear_images (some {"a.jpg"}) (fun _ => true) none ∅).1.2
        = ({"a.jpg"} : Finset String).card :=
  ⟨(C10_clear_images_total (some {"a.jpg"}) (fun _ => true) none ∅).1,
   (C10_clear_images_total (some {"a.jpg"}) (fun _ => true) none ∅).2
     {"a.jpg"} rfl⟩
